import Mathlib

/-!
Verification of the serverless live-chat service (Next.js + MongoDB change
streams).  The embedding below follows the source files:

* `src/utils/model/message.js`   — the mongoose `messageSchema` (trim setters,
  required validators, `timestamps: true`, default `__v` version key);
* `src/unnamed/part_000`         — the `POST` submission handler;
* `src/app/api/stream-messages/route.js` — the `GET` streaming handler
  (per-connection change stream, SSE framing, abort teardown, headers);
* `src/utils/config/db.js`       — `connectDB`.
-/

namespace LiveChat

/-! ## JSON values and JSON.stringify

All objects this app serializes are flat (string / boolean / number fields),
so a non-nested JSON model suffices. -/

inductive JsonPrim where
  | str : String → JsonPrim
  | bool : Bool → JsonPrim
  | num : Nat → JsonPrim
deriving DecidableEq, Repr

/-- A flat JSON object: fields in insertion order, as JS objects keep them. -/
def JsonObj := List (String × JsonPrim)
deriving DecidableEq, Repr

/-- The field names of an object, in order. -/
def JsonObj.keys (o : JsonObj) : List String := o.map Prod.fst

/-- Escaping done by `JSON.stringify` for the characters occurring here. -/
def jsEscapeChar (ch : Char) : String :=
  if ch = '"' then "\\\""
  else if ch = '\\' then "\\\\"
  else if ch = '\n' then "\\n"
  else if ch = '\r' then "\\r"
  else if ch = '\t' then "\\t"
  else String.singleton ch

def jsonQuote (s : String) : String :=
  "\"" ++ String.join (s.data.map jsEscapeChar) ++ "\""

def stringifyPrim : JsonPrim → String
  | JsonPrim.str s => jsonQuote s
  | JsonPrim.bool b => if b then "true" else "false"
  | JsonPrim.num n => toString n

def stringifyFields : List (String × JsonPrim) → String
  | [] => ""
  | [kv] => jsonQuote kv.1 ++ ":" ++ stringifyPrim kv.2
  | kv :: rest => jsonQuote kv.1 ++ ":" ++ stringifyPrim kv.2 ++ "," ++ stringifyFields rest

/-- `JSON.stringify` on a flat object. -/
def JsonObj.stringify (o : JsonObj) : String :=
  "\x7b" ++ stringifyFields o ++ "\x7d"

/-! ## The message model (`src/utils/model/message.js`)

`messageSchema` declares `username` and `content` as required trimmed strings
and `timestamps: true`; mongoose additionally stores the `_id` key and the
`__v` version key.  A document committed to the store therefore carries the
six fields below. -/

structure StoredMessage where
  _id : String
  username : String
  content : String
  createdAt : String
  updatedAt : String
  __v : Nat
deriving DecidableEq, Repr

/-- The change-stream `fullDocument` as `JSON.stringify` sees it: the raw
stored document, whose `ObjectId` and `Date` values serialize as strings. -/
def StoredMessage.fullDocumentJson (m : StoredMessage) : JsonObj :=
  [("_id", JsonPrim.str m._id),
   ("username", JsonPrim.str m.username),
   ("content", JsonPrim.str m.content),
   ("createdAt", JsonPrim.str m.createdAt),
   ("updatedAt", JsonPrim.str m.updatedAt),
   ("__v", JsonPrim.num m.__v)]

/-- The `trim: true` setter of the schema: JS `String.prototype.trim`,
stripping leading and trailing whitespace. -/
def isSpaceChar (ch : Char) : Bool :=
  ch = ' ' ∨ ch = '\t' ∨ ch = '\n' ∨ ch = '\r' ∨ ch = '\x0b' ∨ ch = '\x0c'

def jsTrim (s : String) : String :=
  String.mk (((s.data.dropWhile isSpaceChar).reverse.dropWhile isSpaceChar).reverse)

/-- The durable store: committed documents in commit order, plus a counter
from which fresh `_id` values are generated. -/
structure Store where
  msgs : List StoredMessage
  nextId : Nat
deriving DecidableEq, Repr

def freshId (store : Store) : String := "oid" ++ toString store.nextId

/-- `Message.create` (mongoose): runs the `trim` setters, then the `required`
validators (for a `String` path, non-emptiness); on success inserts the
document with `timestamps` and version key `0`, on validation failure the
returned promise rejects with a `ValidationError` and nothing is inserted. -/
def Message.create (store : Store) (username content : String) (now : String) :
    Except Unit (StoredMessage × Store) :=
  let u := jsTrim username
  let c := jsTrim content
  if u = "" ∨ c = "" then Except.error ()
  else
    let doc : StoredMessage := ⟨freshId store, u, c, now, now, 0⟩
    Except.ok (doc, ⟨store.msgs ++ [doc], store.nextId + 1⟩)

/-! ## The POST submission handler (`src/unnamed/part_000`) -/

/-- A field destructured from the request JSON: absent, or a string. -/
inductive ReqField where
  | missing : ReqField
  | str : String → ReqField
deriving DecidableEq, Repr

/-- JS falsiness of such a field (`!username`): `undefined` and the empty
string are falsy; every non-empty string is truthy. -/
def ReqField.falsy : ReqField → Bool
  | ReqField.missing => true
  | ReqField.str s => s = ""

structure Response where
  status : Nat
  body : JsonObj
deriving DecidableEq, Repr

def invalidInputResponse : Response :=
  ⟨400, [("error", JsonPrim.str "Invalid input")]⟩

/-- The `POST` handler.  `Except.error ()` is a rejection the handler does
not catch (surfaced by the framework as an HTTP 500, never as the handler's
own JSON response); the store after the call is returned alongside. -/
def POST (username content : ReqField) (store : Store) (now : String) :
    Except Unit Response × Store :=
  if username.falsy || content.falsy then
    (Except.ok invalidInputResponse, store)
  else
    match username, content with
    | ReqField.str u, ReqField.str c =>
      match Message.create store u c now with
      | Except.error _ => (Except.error (), store)
      | Except.ok (doc, store') =>
        (Except.ok ⟨201, [("success", JsonPrim.bool true),
                          ("messageId", JsonPrim.str doc._id)]⟩, store')
    | _, _ => (Except.error (), store)

/-- The insertion events the change stream emits for the documents committed
between two store states (one `insert` event per new document). -/
def insertEventsBetween (s s' : Store) : List StoredMessage :=
  s'.msgs.drop s.msgs.length

/-! ## The GET streaming handler (`src/app/api/stream-messages/route.js`) -/

/-- Operation types reported by a MongoDB change stream. -/
inductive OpType where
  | insert : OpType
  | update : OpType
  | delete : OpType
  | replace : OpType
  | other : OpType
deriving DecidableEq, Repr

/-- A change event as seen by the `change` listener: its `operationType` and
its `fullDocument` (read only when the operation is an insert). -/
structure ChangeEvent where
  operationType : OpType
  fullDocument : StoredMessage
deriving DecidableEq, Repr

/-- The SSE frame the handler enqueues for an inserted document:
`data: ` ++ `JSON.stringify(change.fullDocument)` ++ two newlines. -/
def frameOf (m : StoredMessage) : String :=
  "data: " ++ m.fullDocumentJson.stringify ++ "\n\n"

/-- One streaming connection, as created by `GET`: its own change stream
(`Message.watch()`) and its own `ReadableStream` controller.  `sinkAlive`
models whether `controller.enqueue` succeeds (false once the underlying
transport is dead); `sent` records the frames enqueued so far. -/
structure Conn where
  feedOpen : Bool
  streamOpen : Bool
  sinkAlive : Bool
  sent : List String
deriving DecidableEq, Repr

/-- The abort listener: `changeStream.close(); controller.close()` — both in
the same teardown step. -/
def onAbort (c : Conn) : Conn :=
  { c with feedOpen := false, streamOpen := false }

structure DeliverResult where
  conn : Conn
  frames : List String
  writeError : Bool
deriving DecidableEq, Repr

/-- The connection's `change` listener on one event.  A closed change stream
no longer invokes its listener, so a connection whose feed is closed does
nothing.  On an insert the handler builds the frame and enqueues it; if the
sink is dead, `controller.enqueue` throws — the handler has no catch and
performs no cleanup, so the connection's state is left untouched.  Non-insert
operations enqueue nothing. -/
def deliver (c : Conn) (ev : ChangeEvent) : DeliverResult :=
  if c.feedOpen = false then ⟨c, [], false⟩
  else if ev.operationType = OpType.insert then
    if c.sinkAlive then
      ⟨{ c with sent := c.sent ++ [frameOf ev.fullDocument] },
       [frameOf ev.fullDocument], false⟩
    else ⟨c, [], true⟩
  else ⟨c, [], false⟩

structure DeliverAllResult where
  conn : Conn
  frames : List String
deriving DecidableEq, Repr

/-- Folding the listener over a sequence of change events. -/
def deliverAll (c : Conn) : List ChangeEvent → DeliverAllResult
  | [] => ⟨c, []⟩
  | ev :: rest =>
    let r := deliver c ev
    let rr := deliverAll r.conn rest
    ⟨rr.conn, r.frames ++ rr.frames⟩

/-- Two concurrently open streaming connections.  Each `GET` call builds its
own change stream and its own controller; the two share no state. -/
structure TwoConns where
  a : Conn
  b : Conn
deriving DecidableEq, Repr

structure DispatchResult where
  conns : TwoConns
  aFrames : List String
  bFrames : List String
deriving DecidableEq, Repr

/-- A store insertion observed by both connections: each connection's own
`change` listener runs on its own state. -/
def dispatch (s : TwoConns) (ev : ChangeEvent) : DispatchResult :=
  let ra := deliver s.a ev
  let rb := deliver s.b ev
  ⟨⟨ra.conn, rb.conn⟩, ra.frames, rb.frames⟩

/-- The headers `GET` puts on its `NextResponse`. -/
def GETResponseHeaders : List (String × String) :=
  [("Content-Type", "text/event-stream"),
   ("Cache-Control", "no-cache"),
   ("Connection", "keep-alive")]

/-! ## connectDB (`src/utils/config/db.js`) -/

/-- The mongoose connection state visible to `connectDB`: `readyState`
(0 disconnected, 1 connected, 2 connecting, 3 disconnecting), the
`strictQuery` option, and a count of `mongoose.connect` invocations. -/
structure DBState where
  readyState : Nat
  strictQuery : Bool
  connectCalls : Nat
deriving DecidableEq, Repr

/-- `connectDB`: if `readyState >= 1` it logs and returns at once; otherwise
it sets `strictQuery` and calls `mongoose.connect` (`canConnect` says whether
that attempt succeeds).  On a connect error the catch block calls
`process.exit(1)`, modelled as `Except.error ()`. -/
def connectDB (canConnect : Bool) (s : DBState) : Except Unit DBState :=
  if s.readyState ≥ 1 then Except.ok s
  else
    let s' : DBState := { s with strictQuery := true, connectCalls := s.connectCalls + 1 }
    if canConnect then Except.ok { s' with readyState := 1 }
    else Except.error ()

end LiveChat

deriving instance DecidableEq for Except

namespace LiveChat

/-- An empty store, used for concrete instantiations. -/
def store0 : Store := ⟨[], 0⟩

/-- A concrete stored document, used for concrete instantiations. -/
def sampleDoc : StoredMessage := ⟨"oid0", "alice", "hello", "t0", "t0", 0⟩

/-! ## Helper lemmas -/

/-- A connection whose change stream is closed no longer runs its listener. -/
theorem deliver_closed_eq (c : Conn) (ev : ChangeEvent) (h : c.feedOpen = false) :
    deliver c ev = ⟨c, [], false⟩ := by simp [deliver, h]

/-- A failing `controller.enqueue` throws out of the listener without any
cleanup: the connection's state is left exactly as it was. -/
theorem deliver_writeError_no_teardown (c : Conn) (ev : ChangeEvent)
    (h : (deliver c ev).writeError = true) : (deliver c ev).conn = c := by
  rcases c with ⟨fo, so, sa, sent⟩
  cases fo <;> cases sa <;> cases hop : ev.operationType <;>
    simp [deliver, hop] at h ⊢

/-! ## The claims -/

/-- C1 (counterexample): the frame the handler enqueues serializes the raw
`fullDocument`, whose field set is not `id, username, content, createdAt`:
there is no `id` field (the identifier is stored under `_id`) and the
mongoose `updatedAt` timestamp (and `__v`) are also present. -/
theorem C1_frame_counterexample :
    frameOf sampleDoc =
      "data: \x7b\"_id\":\"oid0\",\"username\":\"alice\",\"content\":\"hello\",\"createdAt\":\"t0\",\"updatedAt\":\"t0\",\"__v\":0\x7d\n\n" ∧
    "id" ∉ sampleDoc.fullDocumentJson.keys ∧
    "updatedAt" ∈ sampleDoc.fullDocumentJson.keys ∧
    sampleDoc.fullDocumentJson.keys ≠ ["id", "username", "content", "createdAt"] :=
  ⟨rfl, by decide, by decide, by decide⟩

/-- C1 (amended): every delivered frame is exactly the literal `data: `,
followed by the JSON encoding of the full stored document, followed by two
newline characters; the encoded object's fields are exactly `_id`,
`username`, `content`, `createdAt`, `updatedAt` and `__v`, in that order. -/
theorem C1_frame_full_document (m : StoredMessage) :
    frameOf m = "data: " ++ m.fullDocumentJson.stringify ++ "\n\n" ∧
    m.fullDocumentJson.keys =
      ["_id", "username", "content", "createdAt", "updatedAt", "__v"] :=
  ⟨rfl, rfl⟩

/-- C2 (counterexample): submitting the whitespace-only username `" "` with
content `"hi"` does not produce the HTTP 400 `Invalid input` response — the
handler's falsiness check passes and `Message.create` rejects, which the
handler does not catch.  No message is persisted. -/
theorem C2_whitespace_counterexample :
    (POST (ReqField.str " ") (ReqField.str "hi") store0 "t0").1 = Except.error () ∧
    (POST (ReqField.str " ") (ReqField.str "hi") store0 "t0").1 ≠
      Except.ok invalidInputResponse ∧
    (POST (ReqField.str " ") (ReqField.str "hi") store0 "t0").2 = store0 :=
  ⟨rfl, by decide, rfl⟩

/-- C2 (amended): for every POST submission where username and content are
non-empty strings and at least one is empty after trimming, the request ends
in a rejection the handler does not catch (an HTTP 500, not the HTTP 400
`Invalid input` response), and no Message is persisted. -/
theorem C2_whitespace_unhandled (u c : String) (store : Store) (now : String)
    (hu : u ≠ "") (hc : c ≠ "") (h : jsTrim u = "" ∨ jsTrim c = "") :
    (POST (ReqField.str u) (ReqField.str c) store now).1 = Except.error () ∧
    (POST (ReqField.str u) (ReqField.str c) store now).2 = store := by
  rcases h with h | h <;>
    simp [POST, ReqField.falsy, hu, hc, Message.create, h]

theorem C2_whitespace_unhandled_witness :
    (POST (ReqField.str " ") (ReqField.str "x") store0 "t0").1 = Except.error () ∧
    (POST (ReqField.str " ") (ReqField.str "x") store0 "t0").2 = store0 :=
  C2_whitespace_unhandled " " "x" store0 "t0" (by decide) (by decide) (Or.inl (by decide))

/-- C3: for every POST submission where both username and content are strings
that are non-empty after trimming, the handler persists a Message carrying
those (trimmed) fields and returns HTTP 201 with `success: true` and the
persisted document's identifier as `messageId`. -/
theorem C3_valid_submission_created (u c : String) (store : Store) (now : String)
    (hu : jsTrim u ≠ "") (hc : jsTrim c ≠ "") :
    ∃ doc : StoredMessage,
      (POST (ReqField.str u) (ReqField.str c) store now).1 =
        Except.ok ⟨201, [("success", JsonPrim.bool true),
                         ("messageId", JsonPrim.str doc._id)]⟩ ∧
      (POST (ReqField.str u) (ReqField.str c) store now).2.msgs =
        store.msgs ++ [doc] ∧
      doc.username = jsTrim u ∧ doc.content = jsTrim c := by
  have hu0 : u ≠ "" := by intro h; rw [h] at hu; exact hu rfl
  have hc0 : c ≠ "" := by intro h; rw [h] at hc; exact hc rfl
  refine ⟨⟨freshId store, jsTrim u, jsTrim c, now, now, 0⟩, ?_, ?_, rfl, rfl⟩ <;>
    simp [POST, ReqField.falsy, hu0, hc0, Message.create, hu, hc]

theorem C3_valid_submission_created_witness :
    ∃ doc : StoredMessage,
      (POST (ReqField.str "alice") (ReqField.str "hello") store0 "t0").1 =
        Except.ok ⟨201, [("success", JsonPrim.bool true),
                         ("messageId", JsonPrim.str doc._id)]⟩ ∧
      (POST (ReqField.str "alice") (ReqField.str "hello") store0 "t0").2.msgs =
        store0.msgs ++ [doc] ∧
      doc.username = jsTrim "alice" ∧ doc.content = jsTrim "hello" :=
  C3_valid_submission_created "alice" "hello" store0 "t0" (by decide) (by decide)

/-- C4: for every POST submission where username or content is missing or the
empty string, the handler answers HTTP 400 with `error: Invalid input`,
leaves the store untouched, and consequently the change stream emits no
insertion event. -/
theorem C4_missing_or_empty_rejected (username content : ReqField)
    (store : Store) (now : String)
    (h : username.falsy = true ∨ content.falsy = true) :
    POST username content store now = (Except.ok invalidInputResponse, store) ∧
    insertEventsBetween store (POST username content store now).2 = [] := by
  have hcond : (username.falsy || content.falsy) = true := by
    rcases h with h | h <;> simp [h]
  constructor
  · simp [POST, hcond]
  · simp [POST, hcond, insertEventsBetween, List.drop_length]

theorem C4_missing_or_empty_rejected_witness :
    POST (ReqField.str "") (ReqField.str "hi") store0 "t0" =
      (Except.ok invalidInputResponse, store0) ∧
    insertEventsBetween store0
      (POST (ReqField.str "") (ReqField.str "hi") store0 "t0").2 = [] :=
  C4_missing_or_empty_rejected (ReqField.str "") (ReqField.str "hi") store0 "t0"
    (Or.inl (by decide))

/-- C5: a change event whose operation type is not an insertion makes the
connection's listener enqueue nothing — no frame is produced and the
connection's sent log is unchanged. -/
theorem C5_non_insert_enqueues_nothing (c : Conn) (ev : ChangeEvent)
    (h : ev.operationType ≠ OpType.insert) :
    (deliver c ev).frames = [] ∧ (deliver c ev).conn.sent = c.sent := by
  cases hf : c.feedOpen <;> simp [deliver, hf, h]

theorem C5_non_insert_enqueues_nothing_witness :
    (deliver ⟨true, true, true, []⟩ ⟨OpType.update, sampleDoc⟩).frames = [] ∧
    (deliver ⟨true, true, true, []⟩ ⟨OpType.update, sampleDoc⟩).conn.sent =
      (⟨true, true, true, []⟩ : Conn).sent :=
  C5_non_insert_enqueues_nothing ⟨true, true, true, []⟩ ⟨OpType.update, sampleDoc⟩
    (by decide)

/-- C6: the abort listener closes the change-stream handle and the outbound
stream in the same teardown step, and afterwards no sequence of change
events ever enqueues anything to that connection or alters it. -/
theorem C6_abort_teardown (c : Conn) (evs : List ChangeEvent) :
    (onAbort c).feedOpen = false ∧ (onAbort c).streamOpen = false ∧
    deliverAll (onAbort c) evs = ⟨onAbort c, []⟩ := by
  refine ⟨rfl, rfl, ?_⟩
  induction evs with
  | nil => rfl
  | cons ev rest ih =>
    rw [deliverAll, deliver_closed_eq _ _ rfl]
    simp [ih]

/-- C7 (counterexample): when a connection's sink is dead, an insertion event
makes its `controller.enqueue` throw (a write failure), yet the connection is
left exactly as it was — in particular its change-stream handle stays open,
so the failure is not confined to a teardown of the failing connection: no
teardown happens at all. -/
theorem C7_write_failure_counterexample :
    (deliver ⟨true, true, false, []⟩ ⟨OpType.insert, sampleDoc⟩).writeError = true ∧
    (deliver ⟨true, true, false, []⟩ ⟨OpType.insert, sampleDoc⟩).conn =
      ⟨true, true, false, []⟩ ∧
    (deliver ⟨true, true, false, []⟩ ⟨OpType.insert, sampleDoc⟩).conn.feedOpen = true :=
  by decide

/-- C7 (amended): a write failure on one connection never affects delivery to
the other connection — each connection has its own change stream and handler,
so the frames delivered to `b` and `b`'s resulting state are identical
whatever the state of the other connection — but the failing connection is
not torn down: its state, change-stream handle included, is left unchanged. -/
theorem C7_isolation_no_teardown (a a' b : Conn) (ev : ChangeEvent)
    (hfail : (deliver a ev).writeError = true) :
    (dispatch ⟨a, b⟩ ev).bFrames = (dispatch ⟨a', b⟩ ev).bFrames ∧
    (dispatch ⟨a, b⟩ ev).conns.b = (dispatch ⟨a', b⟩ ev).conns.b ∧
    (deliver a ev).conn = a :=
  ⟨rfl, rfl, deliver_writeError_no_teardown a ev hfail⟩

theorem C7_isolation_no_teardown_witness :
    (dispatch ⟨⟨true, true, false, []⟩, ⟨true, true, true, []⟩⟩
        ⟨OpType.insert, sampleDoc⟩).bFrames =
      (dispatch ⟨⟨false, false, true, []⟩, ⟨true, true, true, []⟩⟩
        ⟨OpType.insert, sampleDoc⟩).bFrames ∧
    (dispatch ⟨⟨true, true, false, []⟩, ⟨true, true, true, []⟩⟩
        ⟨OpType.insert, sampleDoc⟩).conns.b =
      (dispatch ⟨⟨false, false, true, []⟩, ⟨true, true, true, []⟩⟩
        ⟨OpType.insert, sampleDoc⟩).conns.b ∧
    (deliver ⟨true, true, false, []⟩ ⟨OpType.insert, sampleDoc⟩).conn =
      ⟨true, true, false, []⟩ :=
  C7_isolation_no_teardown ⟨true, true, false, []⟩ ⟨false, false, true, []⟩
    ⟨true, true, true, []⟩ ⟨OpType.insert, sampleDoc⟩ (by decide)

/-- C8: every successfully persisted Message stores the submitted username
and content with leading and trailing whitespace removed, and both stored
fields are non-empty. -/
theorem C8_persisted_fields_trimmed (store : Store) (u c now : String)
    (doc : StoredMessage) (store' : Store)
    (h : Message.create store u c now = Except.ok (doc, store')) :
    doc.username = jsTrim u ∧ doc.content = jsTrim c ∧
    doc.username ≠ "" ∧ doc.content ≠ "" := by
  unfold Message.create at h
  simp only [] at h
  split at h
  · exact absurd h (by simp)
  next hcond =>
    push_neg at hcond
    simp only [Except.ok.injEq, Prod.mk.injEq] at h
    obtain ⟨hdoc, _⟩ := h
    subst hdoc
    exact ⟨rfl, rfl, hcond.1, hcond.2⟩

theorem C8_persisted_fields_trimmed_witness :
    (⟨"oid0", "alice", "hello", "t0", "t0", 0⟩ : StoredMessage).username =
      jsTrim " alice " ∧
    (⟨"oid0", "alice", "hello", "t0", "t0", 0⟩ : StoredMessage).content =
      jsTrim "hello " ∧
    (⟨"oid0", "alice", "hello", "t0", "t0", 0⟩ : StoredMessage).username ≠ "" ∧
    (⟨"oid0", "alice", "hello", "t0", "t0", 0⟩ : StoredMessage).content ≠ "" :=
  C8_persisted_fields_trimmed store0 " alice " "hello " "t0"
    ⟨"oid0", "alice", "hello", "t0", "t0", 0⟩
    ⟨[⟨"oid0", "alice", "hello", "t0", "t0", 0⟩], 1⟩ rfl

/-- C9: the streaming endpoint's response carries exactly the headers
`Content-Type: text/event-stream`, `Cache-Control: no-cache` and
`Connection: keep-alive`. -/
theorem C9_stream_response_headers :
    GETResponseHeaders = [("Content-Type", "text/event-stream"),
      ("Cache-Control", "no-cache"), ("Connection", "keep-alive")] := rfl

/-- C10: when a connection is already established (`readyState >= 1`),
`connectDB` returns at once with the state unchanged — in particular no new
`mongoose.connect` attempt is counted — and running `connectDB` twice in a
row is the same as running it once, whatever the starting state. -/
theorem C10_connectDB_idempotent (canConnect : Bool) (s t : DBState)
    (h : 1 ≤ s.readyState) :
    connectDB canConnect s = Except.ok s ∧
    (connectDB canConnect t).bind (connectDB canConnect) =
      connectDB canConnect t := by
  constructor
  · simp [connectDB, h]
  · cases canConnect <;> by_cases ht : 1 ≤ t.readyState <;>
      simp [connectDB, ht, Except.bind]

theorem C10_connectDB_idempotent_witness :
    connectDB true ⟨1, false, 0⟩ = Except.ok ⟨1, false, 0⟩ ∧
    (connectDB true ⟨0, false, 0⟩).bind (connectDB true) =
      connectDB true ⟨0, false, 0⟩ :=
  C10_connectDB_idempotent true ⟨1, false, 0⟩ ⟨0, false, 0⟩ (by decide)

end LiveChat
